import Mathlib

/-!
Verification development for the OpenTelemetry mysql plugin
(`src/plugins/node/opentelemetry-plugin-mysql/src/mysql.ts`).

The development gives a shallow embedding of the interception and
span-lifecycle engine of `MysqlPlugin`:

- `JSVal` models the dynamically typed JavaScript argument values that
  flow through the wrapped methods (truthiness, `typeof f === "function"`,
  `Array.isArray`).
- `Span` models the tracing span handle with the four operations the
  plugin uses (`startSpan`, `setAttribute`, `setStatus`, `end`); attribute
  writes prepend, and reads take the most recent write, matching the
  map semantics of the tracing API.
- `Slot` models a method slot on a JavaScript object under shimmer
  wrap/unwrap: `Slot.wrap` installs a wrapper produced from the current
  function and remembers the previous state, `Slot.unwrap` restores the
  previous state and is a no-op on a never-wrapped slot (shimmer logs and
  returns without throwing), `Slot.isWrapped` is the wrapped-marker
  consulted by `isWrapped` in the source.
- `patchedQuery` embeds the closure returned by `_patchQuery`,
  `patchCallbackQuery` the callback shim of `_patchCallbackQuery`,
  `streamStep`/`processStreamEvents` the two stream listeners attached in
  the single-argument branch, `patchedGetConnection` the closure returned
  by `_patchGetConnection`, `connectionCallbackShim` the shim of
  `_getConnectionCallbackPatchFn`, and `createConnectionWrapped` /
  `createPoolWrapped` / `createPoolClusterWrapped` the three factory
  wrappers. `MysqlPlugin.patch` / `MysqlPlugin.unpatch` embed the
  activation boundary.

Helper functions of the repository that live outside the embedded file
(`getSpanName`, `getDbStatement`, `getConnectionAttributes` from
`./utils`) and the collaborator formatting function of the mysql module
are modelled from the spec, as marked in their doc comments.
-/

/-- Dynamically typed JavaScript values as they appear in the argument
lists handled by the plugin. `fn` is an opaque function value identified
by a number, `errObj` an Error-like object carrying a `message`, `obj`
any other (truthy) object. -/
inductive JSVal where
  | undef
  | null
  | bool (b : Bool)
  | num (n : Int)
  | str (s : String)
  | arr (vs : List JSVal)
  | fn (id : Nat)
  | errObj (message : String)
  | obj (id : Nat)

/-- JavaScript truthiness of a value, as used by `if (err)` and
`if (arguments[2])` in the source. (`NaN` is not modelled; integers are
falsy exactly when zero.) -/
def JSVal.truthy : JSVal → Bool
  | .undef => false
  | .null => false
  | .bool b => b
  | .num n => n != 0
  | .str s => s != ""
  | .arr _ => true
  | .fn _ => true
  | .errObj _ => true
  | .obj _ => true

/-- Embedding of `typeof v === "function"`. -/
def JSVal.isFunction : JSVal → Bool
  | .fn _ => true
  | _ => false

/-- Embedding of `Array.isArray(v)`. -/
def JSVal.isArray : JSVal → Bool
  | .arr _ => true
  | _ => false

/-- Embedding of reading `v.message`: the message of an Error-like
object, and `undefined` (here `none`) on every other value. -/
def JSVal.errMessage : JSVal → Option String
  | .errObj m => some m
  | _ => none

/-- Text of a query argument (the plugin passes the first argument of
`query` to the statement helpers; string queries are the case exercised
by the spec scenarios). -/
def JSVal.queryText : JSVal → String
  | .str s => s
  | _ => ""

/-- Status codes of `CanonicalCode` used by the plugin. -/
def CanonicalCode.OK : Nat := 0

/-- Status code `CanonicalCode.UNKNOWN`, used for every error status. -/
def CanonicalCode.UNKNOWN : Nat := 2

/-- Span status record passed to `span.setStatus`. -/
structure SpanStatus where
  code : Nat
  message : Option String
deriving DecidableEq

/-- Tracing span handle: name, attribute map (most recent write first),
the last status written (if any), and the number of times `end` was
called. A freshly started span has `ended = 0`; the at-most-once ending
discipline of the plugin shows up as `ended = 1` after the lifecycle. -/
structure Span where
  name : String
  attrs : List (String × String)
  status : Option SpanStatus
  ended : Nat
deriving DecidableEq

/-- Embedding of `tracer.startSpan(name, { attributes })`. -/
def startSpan (name : String) (attrs : List (String × String)) : Span :=
  { name := name, attrs := attrs, status := none, ended := 0 }

/-- Embedding of `span.setAttribute(key, value)`; the new entry shadows
any earlier write of the same key. -/
def Span.setAttribute (sp : Span) (key value : String) : Span :=
  { sp with attrs := (key, value) :: sp.attrs }

/-- Embedding of `span.setStatus(st)`. -/
def Span.setStatus (sp : Span) (st : SpanStatus) : Span :=
  { sp with status := some st }

/-- Embedding of `span.end()`. -/
def Span.endSpan (sp : Span) : Span :=
  { sp with ended := sp.ended + 1 }

/-- State of one method slot on an object under shimmer. `plain f` is an
unwrapped slot holding `f`; `wrap` replaces the current function by the
output of the wrapper factory and remembers the previous state, which
`unwrap` restores. The wrapped-marker checked by `isWrapped` in the
source is the `wrapped` constructor. -/
inductive Slot (F : Type) where
  | plain (f : F)
  | wrapped (w : F) (inner : Slot F)
deriving DecidableEq

/-- Function currently installed in the slot. -/
def Slot.current {F : Type} : Slot F → F
  | .plain f => f
  | .wrapped w _ => w

/-- Embedding of `shimmer.wrap(obj, name, factory)`: unconditional, so
wrapping an already wrapped slot stacks a second layer. -/
def Slot.wrap {F : Type} (s : Slot F) (factory : F → F) : Slot F :=
  .wrapped (factory s.current) s

/-- Embedding of `shimmer.unwrap(obj, name)`: restores the previous
state of a wrapped slot and is a no-op (shimmer only logs) on an
unwrapped one. -/
def Slot.unwrap {F : Type} : Slot F → Slot F
  | .wrapped _ inner => inner
  | .plain f => .plain f

/-- Embedding of `isWrapped(obj[name])` from the core package. -/
def Slot.isWrapped {F : Type} : Slot F → Bool
  | .wrapped _ _ => true
  | .plain _ => false

/-- Number of wrap layers currently installed on the slot. -/
def Slot.depth {F : Type} : Slot F → Nat
  | .plain _ => 0
  | .wrapped _ inner => inner.depth + 1

/-- Connection configuration record (`connection.config`) with the
fields the attribute extraction reads. -/
structure ConnectionConfig where
  host : Option String
  port : Option Nat
  user : Option String
  database : Option String

/-- Semantic attribute key `DatabaseAttribute.DB_SYSTEM`. -/
def DB_SYSTEM : String := "db.system"

/-- Semantic attribute key `DatabaseAttribute.DB_STATEMENT`. -/
def DB_STATEMENT : String := "db.statement"

/-- Embedding of `MysqlPlugin.COMMON_ATTRIBUTES`. -/
def commonAttributes : List (String × String) :=
  [(DB_SYSTEM, "mysql")]

/-- Modelled from the spec: `getConnectionAttributes` from `./utils`
(not under `src/`) derives attributes from the configuration record
(host, port, user, database). -/
def getConnectionAttributes (cfg : ConnectionConfig) : List (String × String) :=
  (cfg.host.map fun h => ("net.peer.name", h)).toList ++
  (cfg.port.map fun p => ("net.peer.port", toString p)).toList ++
  (cfg.user.map fun u => ("db.user", u)).toList ++
  (cfg.database.map fun d => ("db.name", d)).toList

/-- Modelled from the spec: `getSpanName` from `./utils` (not under
`src/`) derives the span name from the query text/type. -/
def getSpanName (q : JSVal) : String :=
  q.queryText

/-- Modelled from the spec: `getDbStatement` from `./utils` (not under
`src/`) renders the query text against the bind values using the
collaborator formatting function when values were supplied, and returns
the bare text otherwise. -/
def getDbStatement (q : JSVal) (format : String → List JSVal → String) :
    Option (List JSVal) → String
  | some vs => format q.queryText vs
  | none => q.queryText

/-- Rendering of a single bind value into statement text (supports the
numeric and string values used by the spec examples). -/
def renderValue : JSVal → String
  | .num n => toString n
  | .str s => s
  | .bool b => toString b
  | _ => "?"

/-- Character-level placeholder substitution: each `?` consumes the next
bind value. -/
def substPlaceholders : List Char → List JSVal → List Char
  | [], _ => []
  | '?' :: cs, v :: vs => (renderValue v).toList ++ substPlaceholders cs vs
  | '?' :: cs, [] => '?' :: substPlaceholders cs []
  | c :: cs, vs => c :: substPlaceholders cs vs

/-- Modelled from the spec: the collaborator formatting function of the
mysql module (`this._moduleExports.format`), of contract
`(text, values) -> renderedText`; substitutes each `?` placeholder by
the next value, e.g. `format "SELECT ?" [5] = "SELECT 5"`. -/
def mysqlFormat (text : String) (values : List JSVal) : String :=
  String.mk (substPlaceholders text.toList values)

/-- Embedding of the bind-values computation of `_patchQuery` (lines
218 to 224): `values` is the second argument itself when it is an
array, the second argument wrapped in a one-element array when
`arguments[2]` is truthy, and absent otherwise. -/
def queryValues (args : List JSVal) : Option (List JSVal) :=
  match args.getD 1 .undef with
  | .arr vs => some vs
  | a1 => if (args.getD 2 .undef).truthy then some [a1] else none

/-- Embedding of the span construction of `_patchQuery` (lines 210 to
229): the span is started with the derived name and the common plus
connection attributes, and the statement attribute is set from the
rendered query text. -/
def queryStartSpan (fmt : String → List JSVal → String)
    (cfg : ConnectionConfig) (args : List JSVal) : Span :=
  let q := args.getD 0 .undef
  let span := startSpan (getSpanName q)
    (commonAttributes ++ getConnectionAttributes cfg)
  span.setAttribute DB_STATEMENT (getDbStatement q fmt (queryValues args))

/-- Outcome of one invocation of the wrapped `query` method. `disabled`
carries the connection slot after the self-healing unwrap together with
the unmodified result of delegating the original arguments to the
captured original method (no span exists on this path). `streaming`
carries the started span and the stream returned unchanged by the
original method, with the two listeners of the single-argument branch
attached to it. `callbackWrapped span pos args` means the original
method was invoked with `args`, except that the function at position
`pos` was replaced in place by the shim `patchCallbackQuery span`.
`plainDelegate` is the fall-through delegation for calls with two or
more arguments and no callback: the span stays open, nothing ever ends
it. -/
inductive QueryOutcome (F R : Type) where
  | disabled (newSlot : Slot F) (result : R)
  | streaming (span : Span) (stream : R)
  | callbackWrapped (span : Span) (pos : Nat) (args : List JSVal)
  | plainDelegate (span : Span) (result : R)

/-- Span held by the outcome, when one was created. -/
def QueryOutcome.spanOf {F R : Type} : QueryOutcome F R → Option Span
  | .disabled _ _ => none
  | .streaming sp _ => some sp
  | .callbackWrapped sp _ _ => some sp
  | .plainDelegate sp _ => some sp

/-- Number of spans started by the invocation. -/
def QueryOutcome.spansCreated {F R : Type} (o : QueryOutcome F R) : Nat :=
  match o with
  | .disabled _ _ => 0
  | _ => 1

/-- Whether the invocation took the single-argument streaming branch. -/
def QueryOutcome.isStreaming {F R : Type} : QueryOutcome F R → Bool
  | .streaming _ _ => true
  | _ => false

/-- Statement attribute of the span created by the invocation. -/
def QueryOutcome.statementAttr {F R : Type} (o : QueryOutcome F R) : Option String :=
  o.spanOf.bind fun sp => sp.attrs.lookup DB_STATEMENT

/-- End count of the span created by the invocation, at return time. -/
def QueryOutcome.spanEnded {F R : Type} (o : QueryOutcome F R) : Option Nat :=
  o.spanOf.map Span.ended

/-- Embedding of the closure returned by `_patchQuery` (lines 200 to
256). `connQuery` is the query slot of the connection the closure
closes over, `origQuery` the captured original method, `args` the
JavaScript `arguments` of the call. When the plugin is disabled the
closure unwraps the slot and tail-calls the original with the original
arguments; otherwise it starts the span, dispatches on
`arguments.length === 1` and on which position holds a function, and
produces the corresponding outcome. -/
def patchedQuery {F R : Type} (enabled : Bool)
    (fmt : String → List JSVal → String) (cfg : ConnectionConfig)
    (connQuery : Slot F) (origQuery : List JSVal → R)
    (args : List JSVal) : QueryOutcome F R :=
  if !enabled then
    .disabled connQuery.unwrap (origQuery args)
  else
    let span := queryStartSpan fmt cfg args
    if args.length = 1 then
      .streaming span (origQuery args)
    else if (args.getD 1 .undef).isFunction then
      .callbackWrapped span 1 args
    else if (args.getD 2 .undef).isFunction then
      .callbackWrapped span 2 args
    else
      .plainDelegate span (origQuery args)

/-- Embedding of the shim produced by `_patchCallbackQuery` (lines 260
to 281): on invocation with `(err, results, fields)` it sets the span
status (error with the error message when `err` is truthy, OK
otherwise), ends the span, and then invokes the original callback with
the original arguments, returned here as the second component. -/
def patchCallbackQuery (span : Span) (err results fields : JSVal) :
    Span × (JSVal × JSVal × JSVal) :=
  let span :=
    if err.truthy then
      span.setStatus { code := CanonicalCode.UNKNOWN, message := err.errMessage }
    else
      span.setStatus { code := CanonicalCode.OK, message := none }
  (span.endSpan, (err, results, fields))

/-- Events emitted by the stream returned from a single-argument query
call. Only `error` and `end` have listeners attached by the plugin;
`dataEv` stands for every other event. -/
inductive StreamEvent where
  | errorEv (message : String)
  | endEv
  | dataEv
deriving DecidableEq

/-- Whether an event is the termination event. -/
def StreamEvent.isEnd : StreamEvent → Bool
  | .endEv => true
  | _ => false

/-- Whether an event is an error event. -/
def StreamEvent.isError : StreamEvent → Bool
  | .errorEv _ => true
  | _ => false

/-- Embedding of the two listeners attached in the streaming branch
(lines 237 to 246): the error listener sets an error status carrying
the event message without ending the span; the end listener ends the
span without touching the status; other events have no listener. -/
def streamStep (sp : Span) : StreamEvent → Span
  | .errorEv m => sp.setStatus { code := CanonicalCode.UNKNOWN, message := some m }
  | .endEv => sp.endSpan
  | .dataEv => sp

/-- Effect on the span of a sequence of stream events. -/
def processStreamEvents (sp : Span) (evs : List StreamEvent) : Span :=
  evs.foldl streamStep sp

/-- Outcome of one invocation of the wrapped `getConnection` method.
`disabled` carries the pool slot after the self-healing unwrap together
with the unmodified result of delegating the original arguments to the
captured original method. `shimmed leading cb` means the original
method was invoked with the leading selector arguments unchanged,
followed by the shim `connectionCallbackShim` built from the
caller-supplied callback `cb` in place of `cb`. `passthrough` is the
fall-through delegation with the original arguments for every other
argument shape. -/
inductive GetConnOutcome (G S : Type) where
  | disabled (newSlot : Slot G) (result : S)
  | shimmed (leading : List JSVal) (cb : JSVal)
  | passthrough (result : S)

/-- Embedding of the closure returned by `_patchGetConnection` (lines
144 to 169): when disabled, unwrap the slot and delegate; otherwise
dispatch on `arguments.length` being 1, 2 or 3 with a function in the
trailing position, replacing exactly that trailing callback by the
shim; any other shape is passed through unchanged. -/
def patchedGetConnection {G S : Type} (enabled : Bool) (poolSlot : Slot G)
    (origGetConnection : List JSVal → S) (args : List JSVal) :
    GetConnOutcome G S :=
  if !enabled then
    .disabled poolSlot.unwrap (origGetConnection args)
  else
    let a1 := args.getD 0 .undef
    let a2 := args.getD 1 .undef
    let a3 := args.getD 2 .undef
    if args.length == 1 && a1.isFunction then
      .shimmed [] a1
    else if args.length == 2 && a2.isFunction then
      .shimmed [a1] a2
    else if args.length == 3 && a3.isFunction then
      .shimmed [a1, a2] a3
    else
      .passthrough (origGetConnection args)

/-- Connection-like object as seen by the acquisition shim: the only
part the shim touches is the query method slot. -/
structure ConnLike (F : Type) where
  querySlot : Slot F
deriving DecidableEq

/-- Result of one invocation of the acquisition shim: the connection
after the possible in-place wrap of its query method (the same object
the shim received, `none` when no connection was delivered), and the
list of invocations of the caller-supplied callback, each recorded as
the argument tuple `(error, connection, further values)` it was passed.
-/
structure ShimResult (F : Type) where
  conn : Option (ConnLike F)
  cbCalls : List (JSVal × Option (ConnLike F) × List JSVal)

/-- Embedding of the shim returned by `_getConnectionCallbackPatchFn`
(lines 173 to 191). `qfactory` is the wrapper factory
`_patchQuery(arguments[1])`. When the second shim argument (the
connection) is truthy, its query slot is wrapped unless it already
carries the wrapped-marker; then, when the captured `cb` is a function,
it is invoked once with all of the shim arguments unchanged (the
connection having been mutated in place, forwarding it is forwarding
the same object). -/
def connectionCallbackShim {F : Type} (qfactory : F → F) (cb : JSVal)
    (err : JSVal) (conn : Option (ConnLike F)) (rest : List JSVal) :
    ShimResult F :=
  let conn :=
    match conn with
    | some c =>
        if c.querySlot.isWrapped then some c
        else some { c with querySlot := c.querySlot.wrap qfactory }
    | none => none
  { conn := conn
    cbCalls := if cb.isFunction then [(err, conn, rest)] else [] }

/-- Object produced by one of the three factories, as seen by the
factory wrappers: a query method slot, an acquisition method slot, and
an opaque payload standing for every other part of the object, which
the wrappers never touch. -/
structure FactoryObj (F G P : Type) where
  querySlot : Slot F
  getConnectionSlot : Slot G
  payload : P

/-- Embedding of the closure returned by `_patchCreateConnection`
(lines 78 to 91): delegate all original arguments to the original
factory, wrap the query method of the produced object in place, and
return that same object. -/
def createConnectionWrapped {F G P : Type}
    (orig : List JSVal → FactoryObj F G P) (qfactory : F → F)
    (args : List JSVal) : FactoryObj F G P :=
  let r := orig args
  { r with querySlot := r.querySlot.wrap qfactory }

/-- Embedding of the closure returned by `_patchCreatePool` (lines 100
to 111): delegate all original arguments to the original factory, wrap
both the query and the acquisition methods of the produced pool in
place, and return that same object. -/
def createPoolWrapped {F G P : Type}
    (orig : List JSVal → FactoryObj F G P) (qfactory : F → F)
    (gfactory : G → G) (args : List JSVal) : FactoryObj F G P :=
  let p := orig args
  { p with
    querySlot := p.querySlot.wrap qfactory
    getConnectionSlot := p.getConnectionSlot.wrap gfactory }

/-- Embedding of the closure returned by `_patchCreatePoolCluster`
(lines 122 to 133): delegate all original arguments to the original
factory, wrap only the acquisition method of the produced cluster in
place, and return that same object. -/
def createPoolClusterWrapped {F G P : Type}
    (orig : List JSVal → FactoryObj F G P) (gfactory : G → G)
    (args : List JSVal) : FactoryObj F G P :=
  let c := orig args
  { c with getConnectionSlot := c.getConnectionSlot.wrap gfactory }

/-- The three factory slots of the client module mutated by the
activation boundary. -/
structure ClientModule (F : Type) where
  createConnection : Slot F
  createPool : Slot F
  createPoolCluster : Slot F
deriving DecidableEq

/-- State owned by the plugin: the process-wide enabled flag and the
module whose factory slots it wraps. -/
structure PluginState (F : Type) where
  enabled : Bool
  module : ClientModule F
deriving DecidableEq

/-- Embedding of `MysqlPlugin.patch` (lines 40 to 61): set the enabled
flag and wrap each of the three factory slots with its wrapper factory.
The shimmer wraps are unconditional. -/
def MysqlPlugin.patch {F : Type} (f1 f2 f3 : F → F)
    (st : PluginState F) : PluginState F :=
  { enabled := true
    module :=
      { createConnection := st.module.createConnection.wrap f1
        createPool := st.module.createPool.wrap f2
        createPoolCluster := st.module.createPoolCluster.wrap f3 } }

/-- Embedding of `MysqlPlugin.unpatch` (lines 63 to 68): clear the
enabled flag and unwrap each of the three factory slots. -/
def MysqlPlugin.unpatch {F : Type} (st : PluginState F) : PluginState F :=
  { enabled := false
    module :=
      { createConnection := st.module.createConnection.unwrap
        createPool := st.module.createPool.unwrap
        createPoolCluster := st.module.createPoolCluster.unwrap } }

/-! Helper lemmas. -/

theorem patchedQuery_true_eq {F R : Type} (fmt : String → List JSVal → String)
    (cfg : ConnectionConfig) (slot : Slot F) (orig : List JSVal → R)
    (args : List JSVal) :
    patchedQuery true fmt cfg slot orig args =
      if args.length = 1 then
        .streaming (queryStartSpan fmt cfg args) (orig args)
      else if (args.getD 1 .undef).isFunction then
        .callbackWrapped (queryStartSpan fmt cfg args) 1 args
      else if (args.getD 2 .undef).isFunction then
        .callbackWrapped (queryStartSpan fmt cfg args) 2 args
      else
        .plainDelegate (queryStartSpan fmt cfg args) (orig args) := rfl

theorem patchedQuery_false_eq {F R : Type} (fmt : String → List JSVal → String)
    (cfg : ConnectionConfig) (slot : Slot F) (orig : List JSVal → R)
    (args : List JSVal) :
    patchedQuery false fmt cfg slot orig args
      = .disabled slot.unwrap (orig args) := rfl

theorem queryStartSpan_ended (fmt : String → List JSVal → String)
    (cfg : ConnectionConfig) (args : List JSVal) :
    (queryStartSpan fmt cfg args).ended = 0 := rfl

theorem queryStartSpan_statement (fmt : String → List JSVal → String)
    (cfg : ConnectionConfig) (args : List JSVal) :
    (queryStartSpan fmt cfg args).attrs.lookup DB_STATEMENT
      = some (getDbStatement (args.getD 0 .undef) fmt (queryValues args)) := by
  simp [queryStartSpan, Span.setAttribute, startSpan, List.lookup]

theorem patchCallbackQuery_forward (span : Span) (err results fields : JSVal) :
    (patchCallbackQuery span err results fields).2 = (err, results, fields) := rfl

theorem patchCallbackQuery_ended (span : Span) (err results fields : JSVal) :
    (patchCallbackQuery span err results fields).1.ended = span.ended + 1 := by
  by_cases ht : err.truthy <;>
    simp [patchCallbackQuery, ht, Span.setStatus, Span.endSpan]

theorem processStreamEvents_ended (sp : Span) (evs : List StreamEvent) :
    (processStreamEvents sp evs).ended
      = sp.ended + evs.countP StreamEvent.isEnd := by
  induction evs generalizing sp with
  | nil => simp [processStreamEvents]
  | cons e t ih =>
    have step : processStreamEvents sp (e :: t)
        = processStreamEvents (streamStep sp e) t := rfl
    rw [step, ih]
    cases e <;>
      simp [streamStep, Span.setStatus, Span.endSpan, List.countP_cons,
        StreamEvent.isEnd]
    all_goals omega

theorem processStreamEvents_status_of_noError (sp : Span)
    (evs : List StreamEvent) (h : ∀ e ∈ evs, e.isError = false) :
    (processStreamEvents sp evs).status = sp.status := by
  induction evs generalizing sp with
  | nil => rfl
  | cons e t ih =>
    have he : e.isError = false := h e (List.mem_cons_self e t)
    have ht : ∀ e2 ∈ t, e2.isError = false := fun e2 hm => h e2 (List.mem_cons_of_mem e hm)
    cases e with
    | errorEv m => simp [StreamEvent.isError] at he
    | endEv =>
      show (processStreamEvents sp.endSpan t).status = sp.status
      rw [ih sp.endSpan ht]; rfl
    | dataEv =>
      show (processStreamEvents sp t).status = sp.status
      exact ih sp ht

theorem processStreamEvents_error_sticky (sp : Span) (evs : List StreamEvent)
    (h : ∃ m, sp.status = some { code := CanonicalCode.UNKNOWN, message := m }) :
    ∃ m, (processStreamEvents sp evs).status
        = some { code := CanonicalCode.UNKNOWN, message := m } := by
  induction evs generalizing sp with
  | nil => exact h
  | cons e t ih =>
    cases e with
    | errorEv m =>
      exact ih (sp.setStatus { code := CanonicalCode.UNKNOWN, message := some m })
        ⟨some m, rfl⟩
    | endEv =>
      obtain ⟨m, hm⟩ := h
      exact ih sp.endSpan ⟨m, by simp [Span.endSpan, hm]⟩
    | dataEv => exact ih sp h

/-! Claim theorems. -/

/-- C1: for every callback-shaped query invocation (a function in the
second or third argument position) while instrumentation is enabled,
exactly one span is created and exactly one span is ended; the span
status is success if and only if the error argument delivered to the
callback is falsy (error status with the error message otherwise); and
the original `(error, results, fields)` values are forwarded to the
caller-supplied callback unchanged after the span is ended. -/
theorem patchedQuery_callback_span_lifecycle {F R : Type}
    (fmt : String → List JSVal → String) (cfg : ConnectionConfig)
    (slot : Slot F) (orig : List JSVal → R) (args : List JSVal)
    (err results fields : JSVal)
    (h : (args.getD 1 .undef).isFunction = true ∨
         (args.getD 2 .undef).isFunction = true) :
    ∃ span pos,
      patchedQuery true fmt cfg slot orig args
          = .callbackWrapped span pos args ∧
      (patchedQuery true fmt cfg slot orig args).spansCreated = 1 ∧
      span.ended = 0 ∧
      (patchCallbackQuery span err results fields).1.ended = 1 ∧
      (patchCallbackQuery span err results fields).2
          = (err, results, fields) ∧
      ((patchCallbackQuery span err results fields).1.status
          = some { code := CanonicalCode.OK, message := none }
        ↔ err.truthy = false) ∧
      (err.truthy = true →
        (patchCallbackQuery span err results fields).1.status
          = some { code := CanonicalCode.UNKNOWN, message := err.errMessage }) := by
  have hlen : ¬ args.length = 1 := by
    intro hl
    rcases h with h | h <;>
      rw [List.getD_eq_default _ _ (by omega)] at h <;>
      simp [JSVal.isFunction] at h
  have hmain : ∃ pos, patchedQuery true fmt cfg slot orig args
      = .callbackWrapped (queryStartSpan fmt cfg args) pos args := by
    rw [patchedQuery_true_eq, if_neg hlen]
    by_cases h1 : (args.getD 1 .undef).isFunction = true
    · exact ⟨1, by rw [if_pos h1]⟩
    · have h2 : (args.getD 2 .undef).isFunction = true := h.resolve_left h1
      exact ⟨2, by rw [if_neg h1, if_pos h2]⟩
  obtain ⟨pos, hpos⟩ := hmain
  refine ⟨queryStartSpan fmt cfg args, pos, hpos, ?_, ?_, ?_, ?_, ?_, ?_⟩
  · rw [hpos]; rfl
  · exact queryStartSpan_ended fmt cfg args
  · rw [patchCallbackQuery_ended, queryStartSpan_ended]
  · exact patchCallbackQuery_forward _ _ _ _
  · by_cases ht : err.truthy <;>
      simp [patchCallbackQuery, ht, Span.setStatus, Span.endSpan,
        CanonicalCode.OK, CanonicalCode.UNKNOWN]
  · intro ht
    simp [patchCallbackQuery, ht, Span.setStatus, Span.endSpan]

/-- Concrete arguments for the callback-shape witness: the Scenario A
call `query("SELECT 1", cb)`. -/
def argsCallbackA : List JSVal := [.str "SELECT 1", .fn 0]

theorem patchedQuery_callback_span_lifecycle_witness :
    ((argsCallbackA.getD 1 .undef).isFunction = true ∨
      (argsCallbackA.getD 2 .undef).isFunction = true) ∧
    (∃ span pos,
      patchedQuery true mysqlFormat
          ⟨some "localhost", some 3306, some "root", some "test"⟩
          (Slot.plain 0) (fun xs => xs) argsCallbackA
          = .callbackWrapped span pos argsCallbackA ∧
      (patchedQuery true mysqlFormat
          ⟨some "localhost", some 3306, some "root", some "test"⟩
          (Slot.plain 0) (fun xs => xs) argsCallbackA).spansCreated = 1 ∧
      span.ended = 0 ∧
      (patchCallbackQuery span (.errObj "connection lost") .null .undef).1.ended
          = 1 ∧
      (patchCallbackQuery span (.errObj "connection lost") .null .undef).2
          = (.errObj "connection lost", .null, .undef) ∧
      ((patchCallbackQuery span (.errObj "connection lost") .null .undef).1.status
          = some { code := CanonicalCode.OK, message := none }
        ↔ (JSVal.errObj "connection lost").truthy = false) ∧
      ((JSVal.errObj "connection lost").truthy = true →
        (patchCallbackQuery span (.errObj "connection lost") .null .undef).1.status
          = some { code := CanonicalCode.UNKNOWN,
                   message := (JSVal.errObj "connection lost").errMessage })) :=
  ⟨Or.inl rfl,
    patchedQuery_callback_span_lifecycle mysqlFormat
      ⟨some "localhost", some 3306, some "root", some "test"⟩
      (Slot.plain 0) (fun xs => xs) argsCallbackA
      (.errObj "connection lost") .null .undef (Or.inl rfl)⟩

/-- C2: for every single-argument (streaming-shape) query invocation
while instrumentation is enabled, an error event on the returned stream
sets the span status to an error code carrying the event message but
does not end the span; the span is ended only on termination (`end`)
events; and a previously recorded error status is preserved at end and
never overwritten to a success status. -/
theorem patchedQuery_streaming_error_preserved {F R : Type}
    (fmt : String → List JSVal → String) (cfg : ConnectionConfig)
    (slot : Slot F) (orig : List JSVal → R) (q : JSVal) (msg : String)
    (evs : List StreamEvent) (h : ∀ e ∈ evs, e.isError = false) :
    ∃ span,
      patchedQuery true fmt cfg slot orig [q]
          = .streaming span (orig [q]) ∧
      (patchedQuery true fmt cfg slot orig [q]).spansCreated = 1 ∧
      span.ended = 0 ∧
      (streamStep span (.errorEv msg)).ended = 0 ∧
      (streamStep span (.errorEv msg)).status
          = some { code := CanonicalCode.UNKNOWN, message := some msg } ∧
      (processStreamEvents (streamStep span (.errorEv msg)) evs).status
          = some { code := CanonicalCode.UNKNOWN, message := some msg } ∧
      (processStreamEvents (streamStep span (.errorEv msg)) evs).ended
          = evs.countP StreamEvent.isEnd ∧
      (∀ evs2 : List StreamEvent, ∀ st,
        (processStreamEvents (streamStep span (.errorEv msg)) evs2).status
            = some st → st.code = CanonicalCode.UNKNOWN) := by
  refine ⟨queryStartSpan fmt cfg [q], ?_, rfl, rfl, ?_, ?_, ?_, ?_, ?_⟩
  · rw [patchedQuery_true_eq]
    simp
  · simp [streamStep, Span.endSpan, Span.setStatus, queryStartSpan_ended]
  · rfl
  · rw [processStreamEvents_status_of_noError _ _ h]; rfl
  · rw [processStreamEvents_ended]
    simp [streamStep, Span.setStatus, queryStartSpan_ended]
  · intro evs2 st hst
    have hsticky := processStreamEvents_error_sticky
      (streamStep (queryStartSpan fmt cfg [q]) (.errorEv msg)) evs2
      ⟨some msg, rfl⟩
    obtain ⟨m, hm⟩ := hsticky
    rw [hm] at hst
    cases hst
    rfl

theorem patchedQuery_streaming_error_preserved_witness :
    (∀ e ∈ ([.dataEv, .endEv] : List StreamEvent), e.isError = false) ∧
    (∃ span,
      patchedQuery true mysqlFormat
          ⟨some "localhost", some 3306, some "root", some "test"⟩
          (Slot.plain 0) (fun xs => xs) [.str "SELECT 1"]
          = .streaming span ([.str "SELECT 1"]) ∧
      (patchedQuery true mysqlFormat
          ⟨some "localhost", some 3306, some "root", some "test"⟩
          (Slot.plain 0) (fun xs => xs) [.str "SELECT 1"]).spansCreated = 1 ∧
      span.ended = 0 ∧
      (streamStep span (.errorEv "connection lost")).ended = 0 ∧
      (streamStep span (.errorEv "connection lost")).status
          = some { code := CanonicalCode.UNKNOWN,
                   message := some "connection lost" } ∧
      (processStreamEvents (streamStep span (.errorEv "connection lost"))
          [.dataEv, .endEv]).status
          = some { code := CanonicalCode.UNKNOWN,
                   message := some "connection lost" } ∧
      (processStreamEvents (streamStep span (.errorEv "connection lost"))
          [.dataEv, .endEv]).ended
          = ([.dataEv, .endEv] : List StreamEvent).countP StreamEvent.isEnd ∧
      (∀ evs2 : List StreamEvent, ∀ st,
        (processStreamEvents (streamStep span (.errorEv "connection lost"))
            evs2).status = some st → st.code = CanonicalCode.UNKNOWN)) :=
  ⟨by decide,
    patchedQuery_streaming_error_preserved mysqlFormat
      ⟨some "localhost", some 3306, some "root", some "test"⟩
      (Slot.plain 0) (fun xs => xs) (.str "SELECT 1") "connection lost"
      [.dataEv, .endEv] (by decide)⟩

/-- Concrete configuration record used by counterexamples and
witnesses. -/
def cfgWitness : ConnectionConfig :=
  ⟨some "localhost", some 3306, some "root", some "test"⟩

/-- C3 counterexample: the enabled two-argument call
`query("SELECT ?", [5])` with no callback is not handled as a streaming
invocation — the dispatch requires `arguments.length === 1` for the
streaming branch, so no stream listeners are attached and the span is
still unended when the wrapped method returns; nothing in the plugin
ever ends it. -/
theorem two_arg_query_not_streaming_cex :
    (patchedQuery true mysqlFormat cfgWitness (Slot.plain 0) (fun xs => xs)
        [.str "SELECT ?", .arr [.num 5]]).isStreaming = false ∧
    (patchedQuery true mysqlFormat cfgWitness (Slot.plain 0) (fun xs => xs)
        [.str "SELECT ?", .arr [.num 5]])
      = .plainDelegate
          (queryStartSpan mysqlFormat cfgWitness [.str "SELECT ?", .arr [.num 5]])
          [.str "SELECT ?", .arr [.num 5]] ∧
    (patchedQuery true mysqlFormat cfgWitness (Slot.plain 0) (fun xs => xs)
        [.str "SELECT ?", .arr [.num 5]]).spanEnded = some 0 := by
  refine ⟨rfl, ?_, by decide⟩
  rw [patchedQuery_true_eq]
  rfl

/-- C3 amended: when enabled, the two-argument call
`query("SELECT ?", [5])` with no callback creates exactly one span
whose statement attribute is the formatted text with the value
substituted (`"SELECT 5"`), but the call is not handled as a streaming
invocation: it falls through to plain delegation with the original
arguments, no stream listeners are attached, and the span is never
ended by the instrumentation. -/
theorem two_arg_array_query_span_unended {F R : Type}
    (cfg : ConnectionConfig) (slot : Slot F) (orig : List JSVal → R) :
    patchedQuery true mysqlFormat cfg slot orig [.str "SELECT ?", .arr [.num 5]]
        = .plainDelegate
            (queryStartSpan mysqlFormat cfg [.str "SELECT ?", .arr [.num 5]])
            (orig [.str "SELECT ?", .arr [.num 5]]) ∧
    (patchedQuery true mysqlFormat cfg slot orig
        [.str "SELECT ?", .arr [.num 5]]).spansCreated = 1 ∧
    (patchedQuery true mysqlFormat cfg slot orig
        [.str "SELECT ?", .arr [.num 5]]).isStreaming = false ∧
    (patchedQuery true mysqlFormat cfg slot orig
        [.str "SELECT ?", .arr [.num 5]]).statementAttr = some "SELECT 5" ∧
    (patchedQuery true mysqlFormat cfg slot orig
        [.str "SELECT ?", .arr [.num 5]]).spanEnded = some 0 := by
  have h1 : patchedQuery true mysqlFormat cfg slot orig
      [.str "SELECT ?", .arr [.num 5]]
      = .plainDelegate
          (queryStartSpan mysqlFormat cfg [.str "SELECT ?", .arr [.num 5]])
          (orig [.str "SELECT ?", .arr [.num 5]]) := by
    rw [patchedQuery_true_eq]
    rfl
  refine ⟨h1, ?_, ?_, ?_, ?_⟩
  · rw [h1]; rfl
  · rw [h1]; rfl
  · rw [h1]
    show (queryStartSpan mysqlFormat cfg
        [.str "SELECT ?", .arr [.num 5]]).attrs.lookup DB_STATEMENT
      = some "SELECT 5"
    rw [queryStartSpan_statement]
    decide
  · rw [h1]
    show some (queryStartSpan mysqlFormat cfg
        [.str "SELECT ?", .arr [.num 5]]).ended = some 0
    rw [queryStartSpan_ended]

/-- C4: after deactivation, the next call to a previously wrapped
`query` or `getConnection` method delegates to the captured original
method with the original arguments and returns its result unmodified,
creates no span, and removes its own wrap from the target object, so a
slot holding exactly the wrap of the plugin is restored to its original
function and subsequent calls hit the original directly. -/
theorem disabled_call_self_heals {F R G S : Type}
    (fmt : String → List JSVal → String) (cfg : ConnectionConfig)
    (slot : Slot F) (orig : List JSVal → R) (args : List JSVal)
    (poolSlot : Slot G) (origGC : List JSVal → S) (args2 : List JSVal) :
    patchedQuery false fmt cfg slot orig args
        = .disabled slot.unwrap (orig args) ∧
    (patchedQuery false fmt cfg slot orig args).spansCreated = 0 ∧
    patchedGetConnection false poolSlot origGC args2
        = .disabled poolSlot.unwrap (origGC args2) ∧
    (∀ (g : F) (f : F → F), ((Slot.plain g).wrap f).unwrap = Slot.plain g) ∧
    (∀ (g : F) (f : F → F), ((Slot.plain g).wrap f).unwrap.current = g) :=
  ⟨rfl, rfl, rfl, fun _ _ => rfl, fun _ _ => rfl⟩

/-- C5: the acquisition callback shim wraps the query method of a
delivered connection only if it does not already carry the
wrapped-marker: a first acquisition of an unwrapped connection installs
exactly the one wrap, and any later acquisition of a connection whose
query method is already wrapped leaves it unchanged, so repeated
acquisitions of the same physical connection yield at most one active
wrap. -/
theorem connection_wrap_idempotent {F : Type} (qf qf2 : F → F)
    (cb cb2 err err2 : JSVal) (rest rest2 : List JSVal) (c : ConnLike F)
    (h : c.querySlot.isWrapped = false) :
    (connectionCallbackShim qf cb err (some c) rest).conn
        = some ⟨c.querySlot.wrap qf⟩ ∧
    (Slot.wrap c.querySlot qf).isWrapped = true ∧
    (Slot.wrap c.querySlot qf).depth = c.querySlot.depth + 1 ∧
    (∀ c2 : ConnLike F, c2.querySlot.isWrapped = true →
      (connectionCallbackShim qf2 cb2 err2 (some c2) rest2).conn = some c2) := by
  refine ⟨?_, rfl, rfl, ?_⟩
  · simp [connectionCallbackShim, h]
  · intro c2 h2
    simp [connectionCallbackShim, h2]

theorem connection_wrap_idempotent_witness :
    ((Slot.plain 0 : Slot Nat).isWrapped = false) ∧
    ((connectionCallbackShim Nat.succ (.fn 0) .null
          (some ⟨Slot.plain 0⟩) []).conn
        = some ⟨(Slot.plain 0).wrap Nat.succ⟩ ∧
      (Slot.wrap (Slot.plain 0) Nat.succ).isWrapped = true ∧
      (Slot.wrap (Slot.plain 0) Nat.succ).depth = (Slot.plain 0 : Slot Nat).depth + 1 ∧
      (∀ c2 : ConnLike Nat, c2.querySlot.isWrapped = true →
        (connectionCallbackShim Nat.succ (.fn 0) .null (some c2) []).conn
          = some c2)) :=
  ⟨rfl, connection_wrap_idempotent Nat.succ Nat.succ (.fn 0) (.fn 0) .null .null
    [] [] ⟨Slot.plain 0⟩ rfl⟩

/-- Concrete client module with unwrapped factory slots, used by the
activation counterexample. -/
def moduleStub : ClientModule Nat := ⟨.plain 0, .plain 1, .plain 2⟩

/-- C6 counterexample: activating twice in a row is not a no-op — the
shimmer wraps of `patch` are unconditional, so the second activation
installs a second wrap layer on every factory slot, observable both as
a different module state and as a factory that stays wrapped after one
deactivation. -/
theorem double_patch_not_noop_cex :
    MysqlPlugin.patch id id id (MysqlPlugin.patch id id id ⟨false, moduleStub⟩)
        ≠ MysqlPlugin.patch id id id ⟨false, moduleStub⟩ ∧
    (MysqlPlugin.unpatch (MysqlPlugin.patch id id id
        (MysqlPlugin.patch id id id
          ⟨false, moduleStub⟩))).module.createConnection.isWrapped = true := by
  decide

/-- C6 amended: calling deactivate without a prior activation is a
no-op and does not raise an error — unwrapping a target that was never
wrapped or already unwrapped is an idempotent no-op, and deactivating a
never-activated plugin state leaves the module unchanged with the flag
already disabled. Calling activate twice, however, is not a no-op: each
activation unconditionally adds one wrap layer to every factory slot.
-/
theorem unpatch_without_prior_patch {F : Type} (e : Bool) (f1 f2 f3 : F)
    (g1 g2 g3 : F → F) (st : PluginState F) :
    MysqlPlugin.unpatch ⟨e, ⟨.plain f1, .plain f2, .plain f3⟩⟩
        = ⟨false, ⟨.plain f1, .plain f2, .plain f3⟩⟩ ∧
    (Slot.plain f1).unwrap = Slot.plain f1 ∧
    (MysqlPlugin.patch g1 g2 g3 st).module.createConnection.depth
        = st.module.createConnection.depth + 1 ∧
    (MysqlPlugin.patch g1 g2 g3 st).module.createPool.depth
        = st.module.createPool.depth + 1 ∧
    (MysqlPlugin.patch g1 g2 g3 st).module.createPoolCluster.depth
        = st.module.createPoolCluster.depth + 1 :=
  ⟨rfl, rfl, rfl, rfl, rfl⟩

theorem spanOf_patchedQuery_true {F R : Type}
    (fmt : String → List JSVal → String) (cfg : ConnectionConfig)
    (slot : Slot F) (orig : List JSVal → R) (args : List JSVal) :
    (patchedQuery true fmt cfg slot orig args).spanOf
      = some (queryStartSpan fmt cfg args) := by
  rw [patchedQuery_true_eq]
  repeat' split
  all_goals rfl

theorem statementAttr_patchedQuery_true {F R : Type}
    (fmt : String → List JSVal → String) (cfg : ConnectionConfig)
    (slot : Slot F) (orig : List JSVal → R) (args : List JSVal) :
    (patchedQuery true fmt cfg slot orig args).statementAttr
      = some (getDbStatement (args.getD 0 .undef) fmt (queryValues args)) := by
  unfold QueryOutcome.statementAttr
  rw [spanOf_patchedQuery_true]
  simp [queryStartSpan_statement]

/-- C7 counterexample: the enabled two-argument call
`query("SELECT ?", 5)` supplies a single non-array value, yet the span
statement attribute is the unrendered text `"SELECT ?"`, not the text
rendered against the wrapped one-element collection (`"SELECT 5"`) —
the source wraps a single value only when `arguments[2]` is truthy. -/
theorem single_value_statement_not_rendered_cex :
    (patchedQuery true mysqlFormat cfgWitness (Slot.plain 0) (fun xs => xs)
        [.str "SELECT ?", .num 5]).statementAttr = some "SELECT ?" ∧
    mysqlFormat "SELECT ?" [.num 5] = "SELECT 5" ∧
    (patchedQuery true mysqlFormat cfgWitness (Slot.plain 0) (fun xs => xs)
        [.str "SELECT ?", .num 5]).statementAttr
      ≠ some (mysqlFormat "SELECT ?" [.num 5]) := by
  decide

/-- C7 amended: when enabled, the span carries a statement attribute
equal to the query text rendered against the bind values by the module
formatting function, where the values are the supplied array when the
second argument is an array (regardless of further arguments), or the
single second-argument value wrapped as a one-element collection when a
single non-array value is supplied and the third argument is present
and truthy; when a single non-array value is supplied with no third
argument, the text is not rendered. -/
theorem statement_attribute_rendering {F R : Type}
    (fmt : String → List JSVal → String) (cfg : ConnectionConfig)
    (slot : Slot F) (orig : List JSVal → R) (q : JSVal) (vs : List JSVal)
    (v c : JSVal) (rest : List JSVal)
    (hv : v.isArray = false) (hc : c.truthy = true) :
    (patchedQuery true fmt cfg slot orig (q :: .arr vs :: rest)).statementAttr
        = some (fmt q.queryText vs) ∧
    (patchedQuery true fmt cfg slot orig [q, v, c]).statementAttr
        = some (fmt q.queryText [v]) ∧
    (patchedQuery true fmt cfg slot orig [q, v]).statementAttr
        = some q.queryText := by
  refine ⟨?_, ?_, ?_⟩
  · rw [statementAttr_patchedQuery_true]
    rfl
  · rw [statementAttr_patchedQuery_true]
    cases v <;> simp_all [queryValues, getDbStatement, JSVal.isArray]
  · rw [statementAttr_patchedQuery_true]
    cases v <;> simp_all [queryValues, getDbStatement, JSVal.isArray, JSVal.truthy]

theorem statement_attribute_rendering_witness :
    ((JSVal.num 5).isArray = false ∧ (JSVal.fn 0).truthy = true) ∧
    ((patchedQuery true mysqlFormat cfgWitness (Slot.plain 0) (fun xs => xs)
        (.str "SELECT ?" :: .arr [.num 5] :: [])).statementAttr
        = some (mysqlFormat (JSVal.str "SELECT ?").queryText [.num 5]) ∧
    (patchedQuery true mysqlFormat cfgWitness (Slot.plain 0) (fun xs => xs)
        [.str "SELECT ?", .num 5, .fn 0]).statementAttr
        = some (mysqlFormat (JSVal.str "SELECT ?").queryText [.num 5]) ∧
    (patchedQuery true mysqlFormat cfgWitness (Slot.plain 0) (fun xs => xs)
        [.str "SELECT ?", .num 5]).statementAttr
        = some (JSVal.str "SELECT ?").queryText) :=
  ⟨⟨rfl, rfl⟩,
    statement_attribute_rendering mysqlFormat cfgWitness (Slot.plain 0)
      (fun xs => xs) (.str "SELECT ?") [.num 5] (.num 5) (.fn 0) [] rfl rfl⟩

/-- C8: for every enabled acquisition call with one, two or three
positional arguments whose trailing argument is a function, the wrapper
replaces exactly that trailing callback with the shim and forwards the
leading selector arguments to the original acquisition method
unchanged; and the shim forwards all of its own arguments (error,
connection and any further values) unchanged to the caller-supplied
callback — the connection being the same object it received, mutated in
place at most in its query slot. -/
theorem getConnection_shim_forwarding {G S F : Type} (poolSlot : Slot G)
    (origGC : List JSVal → S) (args : List JSVal) (qf : F → F)
    (cb err : JSVal) (conn : Option (ConnLike F)) (rest : List JSVal)
    (h1 : 1 ≤ args.length) (h2 : args.length ≤ 3)
    (h3 : (args.getD (args.length - 1) .undef).isFunction = true)
    (hcb : cb.isFunction = true) :
    patchedGetConnection true poolSlot origGC args
        = .shimmed args.dropLast (args.getD (args.length - 1) .undef) ∧
    (connectionCallbackShim qf cb err conn rest).cbCalls
        = [(err, (connectionCallbackShim qf cb err conn rest).conn, rest)] := by
  constructor
  · rcases args with _ | ⟨a, _ | ⟨b, _ | ⟨c, _ | ⟨d, t⟩⟩⟩⟩
    · simp at h1
    · have h3a : a.isFunction = true := by simpa using h3
      simp [patchedGetConnection, h3a]
    · have h3a : b.isFunction = true := by simpa using h3
      simp [patchedGetConnection, h3a]
    · have h3a : c.isFunction = true := by simpa using h3
      simp [patchedGetConnection, h3a]
    · simp only [List.length_cons] at h2
      omega
  · simp [connectionCallbackShim, hcb]

theorem getConnection_shim_forwarding_witness :
    (1 ≤ ([.str "pattern", .fn 1] : List JSVal).length ∧
      ([.str "pattern", .fn 1] : List JSVal).length ≤ 3 ∧
      (([.str "pattern", .fn 1] : List JSVal).getD
          (([.str "pattern", .fn 1] : List JSVal).length - 1) .undef).isFunction
        = true ∧
      (JSVal.fn 1).isFunction = true) ∧
    (patchedGetConnection true (Slot.plain 0) (fun xs => xs)
          [.str "pattern", .fn 1]
        = .shimmed ([.str "pattern", .fn 1] : List JSVal).dropLast
            (([.str "pattern", .fn 1] : List JSVal).getD
              (([.str "pattern", .fn 1] : List JSVal).length - 1) .undef) ∧
      (connectionCallbackShim Nat.succ (.fn 1) .null
          (some ⟨Slot.plain 0⟩) []).cbCalls
        = [(.null, (connectionCallbackShim Nat.succ (.fn 1) .null
            (some ⟨Slot.plain 0⟩) []).conn, [])]) :=
  ⟨⟨by decide, by decide, rfl, rfl⟩,
    getConnection_shim_forwarding (Slot.plain 0) (fun xs => xs)
      [.str "pattern", .fn 1] Nat.succ (.fn 1) .null (some ⟨Slot.plain 0⟩) []
      (by decide) (by decide) rfl rfl⟩

/-- C9: each of the three wrapped construction entry points delegates
to the original factory with all original arguments forwarded unchanged
and returns the very object the original produced, modified only by
attaching wrapped query and/or acquisition methods: the payload is
untouched, the slots not designated for that entry point are untouched,
and each designated slot is exactly the produced slot with one wrap
layer added (so unwrapping it recovers the original method). -/
theorem factory_frame_preservation {F G P : Type}
    (orig : List JSVal → FactoryObj F G P) (qf : F → F) (gf : G → G)
    (args : List JSVal) :
    (createConnectionWrapped orig qf args).payload = (orig args).payload ∧
    (createConnectionWrapped orig qf args).getConnectionSlot
        = (orig args).getConnectionSlot ∧
    (createConnectionWrapped orig qf args).querySlot
        = (orig args).querySlot.wrap qf ∧
    (createConnectionWrapped orig qf args).querySlot.unwrap
        = (orig args).querySlot ∧
    (createPoolWrapped orig qf gf args).payload = (orig args).payload ∧
    (createPoolWrapped orig qf gf args).querySlot
        = (orig args).querySlot.wrap qf ∧
    (createPoolWrapped orig qf gf args).getConnectionSlot
        = (orig args).getConnectionSlot.wrap gf ∧
    (createPoolClusterWrapped orig gf args).payload = (orig args).payload ∧
    (createPoolClusterWrapped orig gf args).querySlot = (orig args).querySlot ∧
    (createPoolClusterWrapped orig gf args).getConnectionSlot
        = (orig args).getConnectionSlot.wrap gf :=
  ⟨rfl, rfl, rfl, rfl, rfl, rfl, rfl, rfl, rfl, rfl⟩

/-- C10: when the acquisition shim is invoked with a truthy error and
no connection, it performs no wrapping and still invokes the
caller-supplied callback once with the original arguments unchanged;
and for every invocation, success or failure, the caller callback is
invoked exactly once. -/
theorem acquisition_failure_forwarding {F : Type} (qf : F → F)
    (cb err : JSVal) (rest : List JSVal)
    (hcb : cb.isFunction = true) (_herr : err.truthy = true) :
    connectionCallbackShim qf cb err none rest
        = { conn := none, cbCalls := [(err, none, rest)] } ∧
    (∀ (err2 : JSVal) (conn2 : Option (ConnLike F)) (rest2 : List JSVal),
      (connectionCallbackShim qf cb err2 conn2 rest2).cbCalls.length = 1) := by
  constructor
  · simp [connectionCallbackShim, hcb]
  · intro err2 conn2 rest2
    cases conn2 <;> simp [connectionCallbackShim, hcb]

theorem acquisition_failure_forwarding_witness :
    ((JSVal.fn 2).isFunction = true ∧
      (JSVal.errObj "pool exhausted").truthy = true) ∧
    (connectionCallbackShim (Nat.succ) (.fn 2) (.errObj "pool exhausted") none []
        = { conn := (none : Option (ConnLike Nat)),
            cbCalls := [(.errObj "pool exhausted", none, [])] } ∧
    (∀ (err2 : JSVal) (conn2 : Option (ConnLike Nat)) (rest2 : List JSVal),
      (connectionCallbackShim Nat.succ (.fn 2) err2 conn2 rest2).cbCalls.length
        = 1)) :=
  ⟨⟨rfl, rfl⟩,
    acquisition_failure_forwarding Nat.succ (.fn 2) (.errObj "pool exhausted")
      [] rfl rfl⟩
